import Mathlib

/-!
Verification of the Deployment-RTDE teleoperation control loops.

The Python sources under `RTDE_Scripts/` and `WacomWrappers/` are embedded
shallowly: poses and register values become rational-number structures, the
per-iteration body of each control loop becomes a pure state-transition
function, and the writes performed on the robot link during one iteration
are collected into an explicit list of `Send` events.
-/

namespace RTDE

/-- A Cartesian pose `[x, y, z, rx, ry, rz]` (meters / radians), the
6-element list used throughout `keyboard_control_loop.py`. -/
@[ext] structure Pose where
  x : ℚ
  y : ℚ
  z : ℚ
  rx : ℚ
  ry : ℚ
  rz : ℚ
deriving DecidableEq, Repr

/-- Rotation-magnitude bound `6.28319` used by `clamp_pose`. -/
def ROT_BOUND : ℚ := 628319 / 100000

/-- `clamp_pose` from `keyboard_control_loop.py` (lines 46-56): positions are
clamped to the workspace box, rotation components are reset to 0 when their
magnitude exceeds `6.28319`. -/
def clamp_pose (p : Pose) : Pose :=
  { x := max (-(3/2)) (min (3/2) p.x)
    y := max (-(3/2)) (min (3/2) p.y)
    z := max (-(1/5)) (min (3/2) p.z)
    rx := if ROT_BOUND < |p.rx| then 0 else p.rx
    ry := if ROT_BOUND < |p.ry| then 0 else p.ry
    rz := if ROT_BOUND < |p.rz| then 0 else p.rz }

/-- `plan_segments` from `keyboard_control_loop.py` (lines 60-83): split a
pose change into `n` evenly spaced waypoints, where `n` is the larger of the
positional and rotational step counts, each computed from the largest
per-component absolute difference.  Every waypoint passes through
`clamp_pose`. -/
def plan_segments (start goal : Pose) (max_pos_step max_rot_step : ℚ) :
    List Pose :=
  let dpx := goal.x - start.x
  let dpy := goal.y - start.y
  let dpz := goal.z - start.z
  let drx := goal.rx - start.rx
  let dry := goal.ry - start.ry
  let drz := goal.rz - start.rz
  let steps_pos : ℤ := max 1 ⌈max |dpx| (max |dpy| |dpz|) / max_pos_step⌉
  let steps_rot : ℤ := max 1 ⌈max |drx| (max |dry| |drz|) / max_rot_step⌉
  let n : ℕ := (max steps_pos steps_rot).toNat
  (List.range n).map fun (i : ℕ) =>
    let t : ℚ := ((i : ℚ) + 1) / (n : ℚ)
    clamp_pose
      { x := start.x + dpx * t
        y := start.y + dpy * t
        z := start.z + dpz * t
        rx := start.rx + drx * t
        ry := start.ry + dry * t
        rz := start.rz + drz * t }

/-- Singularity warn threshold `WRIST2_WARN = 0.25` rad. -/
def WRIST2_WARN : ℚ := 1 / 4

/-- Singularity limit threshold `WRIST2_LIMIT = 0.10` rad. -/
def WRIST2_LIMIT : ℚ := 1 / 10

/-- Auto-tilt step `TILT_STEP = 0.07` rad. -/
def TILT_STEP : ℚ := 7 / 100

/-- Minimum positional segment size `MIN_SEG = 0.002` m. -/
def MIN_SEG : ℚ := 1 / 500

/-- The singularity speed-scale computation of `run_control_loop`
(`keyboard_control_loop.py` lines 240-250), as a function of the wrist
joint angle `q5`. -/
def singularity_scale (q5 : ℚ) : ℚ :=
  let d := |q5|
  if d < WRIST2_WARN then
    if d ≤ WRIST2_LIMIT then 1 / 10
    else max (1/5) ((d - WRIST2_LIMIT) / (WRIST2_WARN - WRIST2_LIMIT))
  else 1

/-- Exact value of the Python double `math.pi`, added to `rz` by the
branch-flip key `b`. -/
def PI_FLOAT : ℚ := 884279719003555 / 281474976710656

/-- The configured keyboard-loop home pose `HOME_POSE`
(`keyboard_control_loop.py` line 33). -/
def HOME_POSE : Pose :=
  { x := -(14397/100000), y := -(43562/100000), z := 20203/100000
    rx := 1/1000, ry := -(3116/1000), rz := -(40/1000) }

/-- One write performed on the RTDE link during an iteration: either the
setpoint registers (a pose) or the watchdog integer register. -/
inductive Send where
  | setp (p : Pose)
  | watchdog (v : ℤ)
deriving DecidableEq, Repr

/-- Whether an iteration of the keyboard loop continues (`ok`) or leaves the
`while` loop (`brk`, the ESC key). -/
inductive TickResult where
  | ok
  | brk
deriving DecidableEq, Repr

/-- The keys handled by the interactive branch of `run_control_loop`
(`keyboard_control_loop.py` lines 173-217). -/
inductive Key where
  | right | left | up | down | ppage | npage
  | plus | minus
  | w | s | a | d | q | e | b | r | f | h | c | g
  | esc | other
deriving DecidableEq, Repr

/-- The mutable locals of `run_control_loop` that survive from one iteration
of the `while` loop to the next, together with the watchdog input register
held in the `watchdog` RTDE packet. -/
structure LoopState where
  desired : Pose
  current_cmd : Pose
  segment_queue : List Pose
  pending_send : Bool
  move_completed : Bool
  last_send_time : ℚ
  base_pos_step : ℚ
  base_rot_step : ℚ
  sync_request : Bool
  last_scale : ℚ
  watchdog_reg : ℤ
deriving DecidableEq, Repr

/-- One state snapshot received from the robot link: the live TCP pose (if
carried and nonempty), the wrist joint `q5` extracted by `get_q5`, and the
robot-side readiness register (absent when the field is missing from the
recipe). -/
structure RobotState where
  actual_TCP_pose : Option Pose
  q5 : Option ℚ
  output_int_register_0 : Option ℤ
deriving DecidableEq, Repr

/-- The per-iteration inputs of `run_control_loop`: the key read from the
terminal (`none` for `-1`), the state snapshot (`none` when `con.receive()`
returns `None`), and the wall-clock value of `time.time()`. -/
structure TickInput where
  key : Option Key
  state : Option RobotState
  now : ℚ
deriving DecidableEq, Repr

/-- The initial `LoopState` built by `run_control_loop` before entering its
`while` loop (`keyboard_control_loop.py` lines 111-155): the desired pose is
the live TCP pose when one arrived during the bounded wait, else the
configured `HOME_POSE`; the watchdog register starts at 0. -/
def keyboard_init (tcp : Option Pose) : LoopState :=
  let desired := tcp.getD HOME_POSE
  { desired := desired
    current_cmd := desired
    segment_queue := []
    pending_send := true
    move_completed := true
    last_send_time := 0
    base_pos_step := 1/100
    base_rot_step := 1/20
    sync_request := false
    last_scale := 1
    watchdog_reg := 0 }

/-- Result of the key-handling block (`keyboard_control_loop.py` lines
173-217): the candidate pose components, the `dirty` flag, the possibly
rescaled base steps, the sync request, and whether ESC broke the loop. -/
structure KeyPhase where
  pose : Pose
  dirty : Bool
  base_pos_step : ℚ
  base_rot_step : ℚ
  sync_request : Bool
  brk : Bool
deriving DecidableEq, Repr

/-- The key-handling block of `run_control_loop`.  In non-interactive mode
no key is read.  Position keys move by `base_pos_step * last_scale`,
rotation keys by `base_rot_step * last_scale`; `+`/`-` rescale the base
steps by 1.25; `b` adds `math.pi` to `rz`; `c` requests a sync; `g` jumps
to `HOME_POSE`; ESC breaks. -/
def key_phase (interactive : Bool) (st : LoopState) (key : Option Key) :
    KeyPhase :=
  let base : KeyPhase :=
    { pose := st.desired, dirty := false, base_pos_step := st.base_pos_step
      base_rot_step := st.base_rot_step, sync_request := st.sync_request
      brk := false }
  if interactive = false then base
  else
    match key with
    | none => base
    | some k =>
      let ps := st.base_pos_step * st.last_scale
      let rs := st.base_rot_step * st.last_scale
      match k with
      | .right => { base with pose := { st.desired with x := st.desired.x + ps }, dirty := true }
      | .left  => { base with pose := { st.desired with x := st.desired.x - ps }, dirty := true }
      | .up    => { base with pose := { st.desired with y := st.desired.y + ps }, dirty := true }
      | .down  => { base with pose := { st.desired with y := st.desired.y - ps }, dirty := true }
      | .ppage => { base with pose := { st.desired with z := st.desired.z + ps }, dirty := true }
      | .npage => { base with pose := { st.desired with z := st.desired.z - ps }, dirty := true }
      | .plus  => { base with base_pos_step := st.base_pos_step * (5/4)
                              base_rot_step := st.base_rot_step * (5/4) }
      | .minus => { base with base_pos_step := st.base_pos_step / (5/4)
                              base_rot_step := st.base_rot_step / (5/4) }
      | .w => { base with pose := { st.desired with rx := st.desired.rx + rs }, dirty := true }
      | .s => { base with pose := { st.desired with rx := st.desired.rx - rs }, dirty := true }
      | .a => { base with pose := { st.desired with ry := st.desired.ry + rs }, dirty := true }
      | .d => { base with pose := { st.desired with ry := st.desired.ry - rs }, dirty := true }
      | .q => { base with pose := { st.desired with rz := st.desired.rz + rs }, dirty := true }
      | .e => { base with pose := { st.desired with rz := st.desired.rz - rs }, dirty := true }
      | .b => { base with pose := { st.desired with rz := st.desired.rz + PI_FLOAT }, dirty := true }
      | .r => { base with pose := { st.desired with z := st.desired.z + 1/20 }, dirty := true }
      | .f => { base with pose := { st.desired with z := st.desired.z - 1/20 }, dirty := true }
      | .h => { base with pose := { st.desired with z := st.desired.z + 1/10 }, dirty := true }
      | .c => { base with sync_request := true }
      | .g => { base with pose := HOME_POSE, dirty := true }
      | .esc => { base with brk := true }
      | .other => base

/-- The sync-to-current-TCP block (`keyboard_control_loop.py` lines
231-236): when requested and a TCP pose is present, snap the desired and
commanded poses to it (clamped), clear the queue, and drop the pending
send. -/
def sync_phase (st : LoopState) (s : RobotState) : LoopState :=
  if st.sync_request = true then
    match s.actual_TCP_pose with
    | some tcp =>
        { st with desired := clamp_pose tcp, current_cmd := clamp_pose tcp
                  segment_queue := [], pending_send := false
                  sync_request := false }
    | none => st
  else st

/-- The replan block (`keyboard_control_loop.py` lines 259-262): when the
desired pose changed this iteration, rebuild the segment queue from the last
commanded pose. -/
def replan_phase (st : LoopState) (pos_seg rot_seg : ℚ) (need_replan : Bool) :
    LoopState :=
  if need_replan = true then
    { st with segment_queue := plan_segments st.current_cmd st.desired pos_seg rot_seg
              pending_send := true }
  else st

/-- Line 268-269: a nonempty segment queue keeps `pending_send` true. -/
def pending_phase (st : LoopState) : LoopState :=
  if st.segment_queue = [] then st else { st with pending_send := true }

/-- The auto-tilt block (`keyboard_control_loop.py` lines 272-282): when a
send is pending, the queue is nonempty, and `|q5|` is at or below the limit,
peek at the next waypoint; if its displacement from the last commanded pose
is predominantly lateral, bias the desired pitch `ry` by `TILT_STEP` signed
by `q5`, clamp, and replan. -/
def tilt_phase (st : LoopState) (q5 : Option ℚ) (pos_seg rot_seg : ℚ) :
    LoopState :=
  match q5, st.segment_queue with
  | some v, peek :: _ =>
    if st.pending_send = true ∧ |v| ≤ WRIST2_LIMIT ∧
        3 * |peek.z - st.current_cmd.z| <
          |peek.x - st.current_cmd.x| + |peek.y - st.current_cmd.y| then
      let d := clamp_pose
        { st.desired with
            ry := st.desired.ry + (if 0 ≤ v then TILT_STEP else -TILT_STEP) }
      { st with desired := d
                segment_queue := plan_segments st.current_cmd d pos_seg rot_seg }
    else st
  | _, _ => st

/-- The handshake-and-send block (`keyboard_control_loop.py` lines 284-297):
when a send is pending, the robot reports ready (a missing readiness
register defaults to 1), and the 20 ms rate limit has elapsed, pop the next
waypoint (or resend the desired pose when the queue is empty), send it, then
set and send the watchdog register to 1; otherwise send only the watchdog
register at its current value. -/
def send_phase (st : LoopState) (s : RobotState) (now : ℚ) :
    LoopState × List Send :=
  if st.pending_send = true ∧ s.output_int_register_0.getD 1 = 1 ∧
      (1:ℚ)/50 ≤ now - st.last_send_time then
    match st.segment_queue with
    | p :: rest =>
        ({ st with current_cmd := p, segment_queue := rest
                   pending_send := !rest.isEmpty, move_completed := false
                   last_send_time := now, watchdog_reg := 1 },
         [Send.setp p, Send.watchdog 1])
    | [] =>
        ({ st with current_cmd := st.desired, pending_send := false
                   move_completed := false, last_send_time := now
                   watchdog_reg := 1 },
         [Send.setp st.desired, Send.watchdog 1])
  else (st, [Send.watchdog st.watchdog_reg])

/-- The move-completion block (`keyboard_control_loop.py` lines 300-302):
when a move is in flight and the readiness register reads 0 (a missing
register defaults to 0 here), mark the move completed and reset the
watchdog register to 0 (it is sent on a later iteration). -/
def complete_phase (st : LoopState) (s : RobotState) : LoopState :=
  if st.move_completed = false ∧ s.output_int_register_0.getD 0 = 0 then
    { st with move_completed := true, watchdog_reg := 0 }
  else st

/-- The part of an iteration of `run_control_loop` that runs after a state
snapshot was received: sync, singularity scaling, replan, pending update,
auto-tilt, handshake/send, and move-completion tracking, in source order. -/
def tick_body (st : LoopState) (s : RobotState) (now : ℚ)
    (need_replan : Bool) : LoopState × List Send :=
  let st₂ := sync_phase st s
  let scale := match s.q5 with
    | some v => singularity_scale v
    | none => 1
  let pos_seg := max MIN_SEG ((1/200) * scale)
  let rot_seg := max (1/50) ((3/100) * scale)
  let st₃ := replan_phase st₂ pos_seg rot_seg need_replan
  let st₄ := pending_phase st₃
  let st₅ := tilt_phase st₄ s.q5 pos_seg rot_seg
  let out := send_phase st₅ s now
  let st₇ := complete_phase out.1 s
  ({ st₇ with last_scale := scale }, out.2)

/-- One full iteration of the `while` loop of `run_control_loop`: key
handling (with clamp on a dirty pose), then — unless ESC broke the loop —
receive; a missing snapshot skips the rest of the iteration (sending
nothing), otherwise `tick_body` runs. -/
def keyboard_tick (interactive : Bool) (st : LoopState) (inp : TickInput) :
    LoopState × List Send × TickResult :=
  let kp := key_phase interactive st inp.key
  if kp.brk = true then (st, [], .brk)
  else
    let desired₁ := if kp.dirty = true then clamp_pose kp.pose else st.desired
    let st₁ := { st with desired := desired₁, base_pos_step := kp.base_pos_step
                         base_rot_step := kp.base_rot_step
                         sync_request := kp.sync_request }
    match inp.state with
    | none => (st₁, [], .ok)
    | some s =>
      let out := tick_body st₁ s inp.now kp.dirty
      (out.1, out.2, .ok)

/-- The `finally` block of `run_control_loop` (lines 324-329): it pauses and
disconnects the link but performs no register writes — in particular the
watchdog register is neither zeroed nor sent. -/
def keyboard_shutdown (st : LoopState) : LoopState × List Send :=
  (st, [])

/-- Tablet active-area width in meters (`wacom_control_loop.py`). -/
def TABLET_WIDTH_M : ℚ := 2032 / 10000

/-- Tablet active-area height in meters (`wacom_control_loop.py`). -/
def TABLET_HEIGHT_M : ℚ := 127 / 1000

/-- The wacom-loop home pose (`wacom_control_loop.py` line 31); note its
`z` and `ry` differ from the keyboard loop's `HOME_POSE`. -/
def WACOM_HOME : Pose :=
  { x := -(14397/100000), y := -(43562/100000), z := 14627/100000
    rx := 1/1000, ry := -(3166/1000), rz := -(40/1000) }

/-- `map_tablet_to_robot` from `wacom_control_loop.py` (lines 44-56): maps
normalized tablet coordinates onto a fixed box centered on `center_pose`,
keeping `z` and the orientation of the center pose. -/
def map_tablet_to_robot (tab_x tab_y : ℚ) (center_pose : Pose) : Pose :=
  { x := center_pose.x + (1/2 - tab_x) * TABLET_WIDTH_M
    y := center_pose.y + (1/2 - tab_y) * TABLET_HEIGHT_M
    z := center_pose.z
    rx := center_pose.rx
    ry := center_pose.ry
    rz := center_pose.rz }

/-- The state carried across iterations of `run_wacom_loop`: the commanded
pose and the watchdog input register. -/
structure WacomState where
  current_cmd : Pose
  watchdog_reg : ℤ
deriving DecidableEq, Repr

/-- The initialization of `run_wacom_loop` (lines 95-100): the commanded
pose starts at `WACOM_HOME`, the watchdog register is set to 1, and both are
sent before the loop begins. -/
def wacom_init : WacomState × List Send :=
  ({ current_cmd := WACOM_HOME, watchdog_reg := 1 },
   [Send.setp WACOM_HOME, Send.watchdog 1])

/-- One iteration of the `while` loop of `run_wacom_loop` (lines 112-142):
a fresh tablet sample is remapped into the commanded pose; a read timeout
(`none`) keeps the previous commanded pose.  Either way the commanded pose
and the watchdog register are sent. -/
def wacom_tick (st : WacomState) (sample : Option (ℚ × ℚ × ℚ)) :
    WacomState × List Send :=
  let cmd := match sample with
    | some (tx, ty, _) => map_tablet_to_robot tx ty WACOM_HOME
    | none => st.current_cmd
  ({ st with current_cmd := cmd },
   [Send.setp cmd, Send.watchdog st.watchdog_reg])

/-- A run of consecutive `run_wacom_loop` iterations, collecting the sends
of each iteration. -/
def wacom_run (st : WacomState) : List (Option (ℚ × ℚ × ℚ)) →
    WacomState × List (List Send)
  | [] => (st, [])
  | i :: rest =>
    let out := wacom_tick st i
    let tail := wacom_run out.1 rest
    (tail.1, out.2 :: tail.2)

/-- The `finally` block of `run_wacom_loop` (lines 146-153): the watchdog
register is forced to 0 and sent before disconnecting. -/
def wacom_shutdown (st : WacomState) : WacomState × List Send :=
  ({ st with watchdog_reg := 0 }, [Send.watchdog 0])

/-- A latest-sample triple as held by the Linux evdev backend: each axis is
`none` until its first event arrives. -/
abbrev Sample := Option ℚ × Option ℚ × Option ℚ

/-- `_Backend._read_with_timeout` from `tablet_reader.py` (lines 76-84) over
the sequence of latest-sample reads it performs: return the first fully
populated sample; when the deadline passes (the sequence is exhausted)
return the sample just read, which may still contain `none` components. -/
def read_with_timeout (first : Sample) (rest : List Sample) : Sample :=
  match first with
  | (some x, some y, some p) => (some x, some y, some p)
  | _ =>
    match rest with
    | [] => first
    | h :: t => read_with_timeout h t

/-- Outcome of `TabletReader.read_normalized`: either the `TimeoutError`
raised by the reader or the returned triple. -/
inductive ReadResult where
  | timeout (msg : String)
  | ok (v : Sample)
deriving DecidableEq, Repr

/-- `TabletReader.read_normalized` from `tablet_reader.py` (lines 135-141):
raise `TimeoutError` exactly when the first component of the backend value
is `None`; otherwise return the tuple as-is, even if other components are
still `None`. -/
def read_normalized (first : Sample) (rest : List Sample) : ReadResult :=
  let vals := read_with_timeout first rest
  if vals.1 = none then
    .timeout "No tablet data available yet (normalized)."
  else
    .ok vals

/-! ### Helper lemmas -/

/-- The last element of a mapped range. -/
theorem range_map_getLast? {α : Type} (f : ℕ → α) (n : ℕ) (h : n ≠ 0) :
    ((List.range n).map f).getLast? = some (f (n - 1)) := by
  rw [List.getLast?_eq_getElem?]
  simp [Nat.sub_lt (Nat.pos_of_ne_zero h)]

/-- The number of waypoints produced by `plan_segments`. -/
theorem plan_segments_length (start goal : Pose) (p r : ℚ) :
    (plan_segments start goal p r).length =
      (max (max 1 ⌈max |goal.x - start.x|
              (max |goal.y - start.y| |goal.z - start.z|) / p⌉)
           (max 1 ⌈max |goal.rx - start.rx|
              (max |goal.ry - start.ry| |goal.rz - start.rz|) / r⌉)).toNat := by
  simp only [plan_segments]
  rw [List.length_map, List.length_range]

/-- The step count of `plan_segments` is at least one. -/
theorem plan_segments_steps_pos (start goal : Pose) (p r : ℚ) :
    1 ≤ (max (max 1 ⌈max |goal.x - start.x|
            (max |goal.y - start.y| |goal.z - start.z|) / p⌉)
         (max 1 ⌈max |goal.rx - start.rx|
            (max |goal.ry - start.ry| |goal.rz - start.rz|) / r⌉)) :=
  le_trans (le_max_left 1 _) (le_max_left _ _)

/-- `plan_segments` always returns at least one waypoint. -/
theorem plan_segments_ne_nil (start goal : Pose) (p r : ℚ) :
    plan_segments start goal p r ≠ [] := by
  have h := plan_segments_steps_pos start goal p r
  have hlen := plan_segments_length start goal p r
  intro hnil
  rw [hnil] at hlen
  simp only [List.length_nil] at hlen
  omega

/-- The final waypoint of `plan_segments` is exactly the clamped goal. -/
theorem plan_segments_getLast? (start goal : Pose) (p r : ℚ) :
    (plan_segments start goal p r).getLast? = some (clamp_pose goal) := by
  have hpos := plan_segments_steps_pos start goal p r
  simp only [plan_segments]
  have hn : (max (max 1 ⌈max |goal.x - start.x|
              (max |goal.y - start.y| |goal.z - start.z|) / p⌉)
           (max 1 ⌈max |goal.rx - start.rx|
              (max |goal.ry - start.ry| |goal.rz - start.rz|) / r⌉)).toNat ≠ 0 := by
    omega
  rw [range_map_getLast? _ _ hn]
  congr 1
  have hcast : (((max (max 1 ⌈max |goal.x - start.x|
              (max |goal.y - start.y| |goal.z - start.z|) / p⌉)
           (max 1 ⌈max |goal.rx - start.rx|
              (max |goal.ry - start.ry| |goal.rz - start.rz|) / r⌉)).toNat : ℕ) : ℚ) ≠ 0 := by
    rw [Nat.cast_ne_zero]
    exact hn
  generalize hN : (max (max 1 ⌈max |goal.x - start.x|
              (max |goal.y - start.y| |goal.z - start.z|) / p⌉)
           (max 1 ⌈max |goal.rx - start.rx|
              (max |goal.ry - start.ry| |goal.rz - start.rz|) / r⌉)).toNat = N at hn hcast
  have hN1 : 1 ≤ N := Nat.pos_of_ne_zero hn
  have ht : ((↑(N - 1) : ℚ) + 1) / (N : ℚ) = 1 := by
    rw [Nat.cast_sub hN1]
    push_cast
    field_simp
  congr 1
  rw [ht]
  ext <;> ring

/-! ### C1 -/

/-- C1: for every start/goal pair and positive step limits, `plan_segments`
returns a nonempty sequence whose last element is `clamp_pose goal`, and for
`start = goal` it returns exactly the one-element sequence
`[clamp_pose goal]`. -/
theorem C1_plan_nonempty_last (start goal : Pose) (p r : ℚ)
    (hp : 0 < p) (hr : 0 < r) :
    plan_segments start goal p r ≠ [] ∧
    (plan_segments start goal p r).getLast? = some (clamp_pose goal) ∧
    (start = goal → plan_segments start goal p r = [clamp_pose goal]) := by
  refine ⟨plan_segments_ne_nil start goal p r,
          plan_segments_getLast? start goal p r, ?_⟩
  intro hsg
  rw [hsg]
  have hlen1 : (plan_segments goal goal p r).length = 1 := by
    rw [plan_segments_length]
    simp
  obtain ⟨a, ha⟩ := List.length_eq_one.mp hlen1
  have hlast := plan_segments_getLast? goal goal p r
  rw [ha] at hlast ⊢
  simpa using hlast

/-- Witness for C1 at concrete inputs: a 4-step plan and a degenerate
zero-distance plan. -/
theorem C1_plan_nonempty_last_witness :
    (plan_segments ⟨0,0,0,0,0,0⟩ ⟨1/50,0,0,0,0,0⟩ (1/200) (3/100) ≠ [] ∧
      (plan_segments ⟨0,0,0,0,0,0⟩ ⟨1/50,0,0,0,0,0⟩ (1/200) (3/100)).getLast?
        = some (clamp_pose ⟨1/50,0,0,0,0,0⟩)) ∧
    plan_segments HOME_POSE HOME_POSE (1/200) (3/100) = [clamp_pose HOME_POSE] :=
  ⟨⟨(C1_plan_nonempty_last ⟨0,0,0,0,0,0⟩ ⟨1/50,0,0,0,0,0⟩ (1/200) (3/100)
      (by norm_num) (by norm_num)).1,
    (C1_plan_nonempty_last ⟨0,0,0,0,0,0⟩ ⟨1/50,0,0,0,0,0⟩ (1/200) (3/100)
      (by norm_num) (by norm_num)).2.1⟩,
   (C1_plan_nonempty_last HOME_POSE HOME_POSE (1/200) (3/100)
      (by norm_num) (by norm_num)).2.2 rfl⟩

/-! ### C2 -/

/-- C2 counterexample: at start `(0,0,0,0,0,0)`, goal
`(0.003, 0.004, 0.012, 0, 0, 0)`, `max_pos_step = 0.004`,
`max_rot_step = 0.03`, the code produces 3 waypoints, while the claimed
formula — Euclidean positional distance
`sqrt(0.003² + 0.004² + 0.012²) = 0.013` and quaternion angular distance
`2·acos(|dot|) = 2·acos(1) = 0` (both orientations are the same zero
rotation, so the unit quaternions coincide and their absolute dot product
is 1) — gives `max(1, ceil(0.013/0.004), ceil(0/0.03)) = 4`. -/
theorem C2_counterexample :
    ((plan_segments ⟨0,0,0,0,0,0⟩ ⟨3/1000,4/1000,12/1000,0,0,0⟩
        (1/250) (3/100)).length : ℤ) = 3 ∧
    max 1 (max
        ⌈Real.sqrt (((3:ℝ)/1000)^2 + ((4:ℝ)/1000)^2 + ((12:ℝ)/1000)^2)
          / ((1:ℝ)/250)⌉
        ⌈(2 * Real.arccos |(1:ℝ)|) / ((3:ℝ)/100)⌉) = (4 : ℤ) ∧
    ((plan_segments ⟨0,0,0,0,0,0⟩ ⟨3/1000,4/1000,12/1000,0,0,0⟩
        (1/250) (3/100)).length : ℤ) ≠
      max 1 (max
        ⌈Real.sqrt (((3:ℝ)/1000)^2 + ((4:ℝ)/1000)^2 + ((12:ℝ)/1000)^2)
          / ((1:ℝ)/250)⌉
        ⌈(2 * Real.arccos |(1:ℝ)|) / ((3:ℝ)/100)⌉) := by
  have hsqrt : Real.sqrt (((3:ℝ)/1000)^2 + ((4:ℝ)/1000)^2 + ((12:ℝ)/1000)^2)
      = 13/1000 := by
    rw [show ((3:ℝ)/1000)^2 + ((4:ℝ)/1000)^2 + ((12:ℝ)/1000)^2
        = ((13:ℝ)/1000)^2 by norm_num]
    exact Real.sqrt_sq (by norm_num)
  have hceil1 : ⌈Real.sqrt (((3:ℝ)/1000)^2 + ((4:ℝ)/1000)^2 + ((12:ℝ)/1000)^2)
      / ((1:ℝ)/250)⌉ = (4:ℤ) := by
    rw [hsqrt, Int.ceil_eq_iff] <;> norm_num
  have hceil2 : ⌈(2 * Real.arccos |(1:ℝ)|) / ((3:ℝ)/100)⌉ = (0:ℤ) := by
    rw [abs_one, Real.arccos_one]
    norm_num
  have hlen : ((plan_segments ⟨0,0,0,0,0,0⟩ ⟨3/1000,4/1000,12/1000,0,0,0⟩
      (1/250) (3/100)).length : ℤ) = 3 := by
    rw [plan_segments_length]
    norm_num
    rw [show |(3:ℚ)/1000| = 3/1000 from abs_of_nonneg (by norm_num),
        show |(1:ℚ)/250| = 1/250 from abs_of_nonneg (by norm_num),
        show |(3:ℚ)/250| = 3/250 from abs_of_nonneg (by norm_num),
        show max ((3:ℚ)/1000) (max (1/250) (3/250)) = 3/250 by
          rw [max_eq_right, max_eq_right] <;> norm_num,
        show ((3:ℚ)/250) / (1/250) = 3 by norm_num]
    rw [show ⌈(3:ℚ)⌉ = (3:ℤ) by rw [Int.ceil_eq_iff] <;> norm_num]
    decide
  refine ⟨hlen, ?_, ?_⟩
  · rw [hceil1, hceil2]
    decide
  · rw [hceil1, hceil2, hlen]
    decide

/-- C2 amended: the waypoint count of `plan_segments` is
`max(1, ceil(pos_cheb/max_pos_step), ceil(rot_cheb/max_rot_step))`, where
`pos_cheb` is the largest per-component absolute position difference
(Chebyshev distance, not Euclidean) and `rot_cheb` the largest
per-component absolute difference of the axis-angle orientation components
(not a quaternion angle). -/
theorem C2_amended (start goal : Pose) (p r : ℚ) (hp : 0 < p) (hr : 0 < r) :
    ((plan_segments start goal p r).length : ℤ) =
      max 1 (max
        ⌈max |goal.x - start.x| (max |goal.y - start.y| |goal.z - start.z|) / p⌉
        ⌈max |goal.rx - start.rx|
            (max |goal.ry - start.ry| |goal.rz - start.rz|) / r⌉) := by
  rw [plan_segments_length]
  rw [Int.toNat_of_nonneg
    (le_trans (by norm_num) (plan_segments_steps_pos start goal p r))]
  rw [max_max_max_comm, max_self]

/-- Witness for C2 amended at the spec's own scenario: a pure 2 cm x-move
at 5 mm steps gives `max(1, 4, 0) = 4` waypoints. -/
theorem C2_amended_witness :
    ((plan_segments ⟨0,0,0,0,0,0⟩ ⟨1/50,0,0,0,0,0⟩ (1/200) (3/100)).length : ℤ)
      = max 1 (max
        ⌈max |(1:ℚ)/50 - 0| (max |(0:ℚ) - 0| |(0:ℚ) - 0|) / (1/200)⌉
        ⌈max |(0:ℚ) - 0| (max |(0:ℚ) - 0| |(0:ℚ) - 0|) / (3/100)⌉) :=
  C2_amended ⟨0,0,0,0,0,0⟩ ⟨1/50,0,0,0,0,0⟩ (1/200) (3/100)
    (by norm_num) (by norm_num)

/-! ### C3 -/

/-- The scale is 1 on and above the warn threshold. -/
theorem singularity_scale_warn (q : ℚ) (h : WRIST2_WARN ≤ |q|) :
    singularity_scale q = 1 := by
  unfold singularity_scale
  rw [if_neg (not_lt.mpr h)]

/-- The scale is 0.1 at and below the limit threshold. -/
theorem singularity_scale_limit (q : ℚ) (h : |q| ≤ WRIST2_LIMIT) :
    singularity_scale q = 1/10 := by
  unfold singularity_scale
  rw [if_pos, if_pos h]
  calc |q| ≤ WRIST2_LIMIT := h
    _ < WRIST2_WARN := by norm_num [WRIST2_LIMIT, WRIST2_WARN]

/-- The scale on the open warn band is the floored linear ramp. -/
theorem singularity_scale_band (q : ℚ) (h1 : WRIST2_LIMIT < |q|)
    (h2 : |q| < WRIST2_WARN) :
    singularity_scale q
      = max (1/5) ((|q| - WRIST2_LIMIT) / (WRIST2_WARN - WRIST2_LIMIT)) := by
  unfold singularity_scale
  rw [if_pos h2, if_neg (not_le.mpr h1)]

/-- The scale never exceeds 1. -/
theorem singularity_scale_le_one (q : ℚ) : singularity_scale q ≤ 1 := by
  simp only [singularity_scale]
  split
  · split
    · norm_num
    · rename_i hwarn hlim
      rw [max_le_iff]
      refine ⟨by norm_num, ?_⟩
      rw [div_le_one (by norm_num [WRIST2_WARN, WRIST2_LIMIT])]
      have h1 := not_le.mp hlim
      simp only [WRIST2_WARN, WRIST2_LIMIT] at hwarn h1 ⊢
      linarith
  · exact le_refl 1

/-- The scale is monotone in `|q5|`. -/
theorem singularity_scale_mono (a b : ℚ) (h : |a| ≤ |b|) :
    singularity_scale a ≤ singularity_scale b := by
  rcases le_or_lt WRIST2_WARN |b| with hbw | hbw
  · rw [singularity_scale_warn b hbw]
    exact singularity_scale_le_one a
  · rcases le_or_lt |b| WRIST2_LIMIT with hbl | hbl
    · rw [singularity_scale_limit b hbl,
          singularity_scale_limit a (le_trans h hbl)]
    · rw [singularity_scale_band b hbl hbw]
      rcases le_or_lt |a| WRIST2_LIMIT with hal | hal
      · rw [singularity_scale_limit a hal]
        calc (1:ℚ)/10 ≤ 1/5 := by norm_num
          _ ≤ _ := le_max_left _ _
      · rw [singularity_scale_band a hal (lt_of_le_of_lt h hbw)]
        apply max_le_max (le_refl _)
        rw [div_eq_mul_inv, div_eq_mul_inv]
        apply mul_le_mul_of_nonneg_right (sub_le_sub_right h _)
        rw [inv_nonneg]
        norm_num [WRIST2_WARN, WRIST2_LIMIT]

/-- C3 counterexample: the scale factor is not continuous at
`|q5| = WRIST2_LIMIT = 0.10`: it equals 0.1 there but is at least the 0.2
floor everywhere just above, a downward jump. -/
theorem C3_counterexample : ¬ ContinuousAt singularity_scale ((1:ℚ)/10) := by
  intro hcont
  have hval : singularity_scale ((1:ℚ)/10) = 1/10 :=
    singularity_scale_limit _ (by
      rw [abs_of_nonneg (by norm_num : (0:ℚ) ≤ 1/10), WRIST2_LIMIT])
  obtain ⟨δ, hδ, hball⟩ := Metric.continuousAt_iff.mp hcont ((1:ℝ)/20) (by norm_num)
  obtain ⟨q, hq0, hqδ⟩ := exists_rat_btwn (lt_min hδ (by norm_num : (0:ℝ) < 3/20))
  have hq0' : (0:ℚ) < q := by exact_mod_cast hq0
  have hqsmall : (q:ℝ) < 3/20 := lt_of_lt_of_le hqδ (min_le_right _ _)
  have hqsmall' : q < 3/20 := by
    rw [show (3:ℝ)/20 = ((3/20 : ℚ) : ℝ) by norm_num] at hqsmall
    exact_mod_cast hqsmall
  have hdist : dist ((1:ℚ)/10 + q) ((1:ℚ)/10) < δ := by
    rw [Rat.dist_eq]
    push_cast
    rw [show ((1:ℝ)/10 + (q:ℝ) - 1/10) = (q:ℝ) by ring,
        abs_of_pos (by exact_mod_cast hq0')]
    exact lt_of_lt_of_le hqδ (min_le_left _ _)
  have habs : |(1:ℚ)/10 + q| = 1/10 + q := abs_of_pos (by linarith)
  have hband : singularity_scale ((1:ℚ)/10 + q)
      = max (1/5) ((|((1:ℚ)/10 + q)| - WRIST2_LIMIT)
          / (WRIST2_WARN - WRIST2_LIMIT)) := by
    apply singularity_scale_band
    · rw [habs, WRIST2_LIMIT]
      linarith
    · rw [habs, WRIST2_WARN]
      linarith
  have hge : (1:ℚ)/5 ≤ singularity_scale ((1:ℚ)/10 + q) := by
    rw [hband]
    exact le_max_left _ _
  have hlt := hball hdist
  rw [hval, Rat.dist_eq] at hlt
  have hge' : (1:ℝ)/5 ≤ ((singularity_scale ((1:ℚ)/10 + q) : ℚ) : ℝ) :=
    calc (1:ℝ)/5 = ((1/5 : ℚ) : ℝ) := by norm_num
      _ ≤ _ := by exact_mod_cast hge
  have : |((singularity_scale ((1:ℚ)/10 + q) : ℚ) : ℝ) - ((1:ℚ)/10 : ℚ)|
      ≥ 1/20 := by
    rw [abs_of_nonneg (by push_cast; linarith)]
    push_cast
    linarith
  linarith

/-- C3 amended: the scale factor equals 1.0 for `|q5| ≥ WARN`, 0.1 for
`|q5| ≤ LIMIT`, `max(0.2, (|q5|−LIMIT)/(WARN−LIMIT))` strictly between, and
is non-increasing as `|q5|` decreases; it is however not continuous through
`[WARN, LIMIT]` — at `|q5| = LIMIT` it jumps down from the 0.2 floor
(its value everywhere above the limit) to 0.1. -/
theorem C3_amended (q : ℚ) :
    (WRIST2_WARN ≤ |q| → singularity_scale q = 1) ∧
    (|q| ≤ WRIST2_LIMIT → singularity_scale q = 1/10) ∧
    (WRIST2_LIMIT < |q| → |q| < WRIST2_WARN →
      singularity_scale q
        = max (1/5) ((|q| - WRIST2_LIMIT) / (WRIST2_WARN - WRIST2_LIMIT))) ∧
    (WRIST2_LIMIT < |q| → 1/5 ≤ singularity_scale q) ∧
    (∀ q' : ℚ, |q'| ≤ |q| → singularity_scale q' ≤ singularity_scale q) := by
  refine ⟨singularity_scale_warn q, singularity_scale_limit q,
          singularity_scale_band q, ?_, fun q' h => singularity_scale_mono q' q h⟩
  intro hlim
  rcases lt_or_le |q| WRIST2_WARN with hw | hw
  · rw [singularity_scale_band q hlim hw]
    exact le_max_left _ _
  · rw [singularity_scale_warn q hw]
    norm_num

/-- Witness for C3 amended at `q5 = 0.3`, `q5 = 0.05` and `q5 = 0.15`. -/
theorem C3_amended_witness :
    singularity_scale (3/10) = 1 ∧
    singularity_scale (1/20) = 1/10 ∧
    singularity_scale (3/20)
      = max (1/5) ((|(3:ℚ)/20| - WRIST2_LIMIT) / (WRIST2_WARN - WRIST2_LIMIT)) ∧
    singularity_scale (1/20) ≤ singularity_scale (3/20) :=
  ⟨(C3_amended (3/10)).1 (by
      rw [abs_of_nonneg (by norm_num : (0:ℚ) ≤ 3/10), WRIST2_WARN]; norm_num),
   (C3_amended (1/20)).2.1 (by
      rw [abs_of_nonneg (by norm_num : (0:ℚ) ≤ 1/20), WRIST2_LIMIT]; norm_num),
   (C3_amended (3/20)).2.2.1
      (by rw [abs_of_nonneg (by norm_num : (0:ℚ) ≤ 3/20), WRIST2_LIMIT]; norm_num)
      (by rw [abs_of_nonneg (by norm_num : (0:ℚ) ≤ 3/20), WRIST2_WARN]; norm_num),
   (C3_amended (3/20)).2.2.2.2 (1/20) (by
      rw [abs_of_nonneg (by norm_num : (0:ℚ) ≤ 1/20),
          abs_of_nonneg (by norm_num : (0:ℚ) ≤ 3/20)]
      norm_num)⟩

/-! ### Phase lemmas for the keyboard loop -/

/-- The key phase with no key pressed changes nothing. -/
theorem key_phase_none (i : Bool) (st : LoopState) :
    key_phase i st none =
      { pose := st.desired, dirty := false, base_pos_step := st.base_pos_step
        base_rot_step := st.base_rot_step, sync_request := st.sync_request
        brk := false } := by
  cases i <;> rfl

/-- Re-clamping a clamped box coordinate changes nothing. -/
theorem clamp_box_idem (lo hi x : ℚ) (h : lo ≤ hi) :
    max lo (min hi (max lo (min hi x))) = max lo (min hi x) := by
  have h2 : max lo (min hi x) ≤ hi := max_le h (min_le_left _ _)
  rw [min_eq_right h2, max_eq_right (le_max_left _ _)]

/-- Re-clamping a clamped rotation component changes nothing. -/
theorem clamp_rot_idem (x : ℚ) :
    (if ROT_BOUND < |if ROT_BOUND < |x| then 0 else x| then 0
      else if ROT_BOUND < |x| then 0 else x)
    = (if ROT_BOUND < |x| then 0 else x) := by
  by_cases h : ROT_BOUND < |x|
  · rw [if_pos h]
    simp
  · rw [if_neg h, if_neg h]

/-- `clamp_pose` is idempotent. -/
theorem clamp_pose_idem (p : Pose) : clamp_pose (clamp_pose p) = clamp_pose p := by
  simp only [clamp_pose]
  ext
  · exact clamp_box_idem _ _ _ (by norm_num)
  · exact clamp_box_idem _ _ _ (by norm_num)
  · exact clamp_box_idem _ _ _ (by norm_num)
  · exact clamp_rot_idem _
  · exact clamp_rot_idem _
  · exact clamp_rot_idem _

/-- The sync phase leaves the watchdog register alone. -/
theorem sync_phase_watchdog (st : LoopState) (s : RobotState) :
    (sync_phase st s).watchdog_reg = st.watchdog_reg := by
  unfold sync_phase
  split
  · split <;> rfl
  · rfl

/-- The replan phase leaves the watchdog register alone. -/
theorem replan_phase_watchdog (st : LoopState) (a b : ℚ) (nr : Bool) :
    (replan_phase st a b nr).watchdog_reg = st.watchdog_reg := by
  unfold replan_phase
  split <;> rfl

/-- The pending phase leaves the watchdog register alone. -/
theorem pending_phase_watchdog (st : LoopState) :
    (pending_phase st).watchdog_reg = st.watchdog_reg := by
  unfold pending_phase
  split <;> rfl

/-- The tilt phase leaves the watchdog register alone. -/
theorem tilt_phase_watchdog (st : LoopState) (q : Option ℚ) (a b : ℚ) :
    (tilt_phase st q a b).watchdog_reg = st.watchdog_reg := by
  unfold tilt_phase
  split
  · split <;> rfl
  · rfl

/-- The sends of the send phase: either one setpoint write followed by a
watchdog write of 1, or a lone watchdog write of the current register. -/
theorem send_phase_sends (st : LoopState) (s : RobotState) (now : ℚ) :
    (∃ p, (send_phase st s now).2 = [Send.setp p, Send.watchdog 1]) ∨
    (send_phase st s now).2 = [Send.watchdog st.watchdog_reg] := by
  unfold send_phase
  split
  · split
    · exact Or.inl ⟨_, rfl⟩
    · exact Or.inl ⟨_, rfl⟩
  · exact Or.inr rfl

/-- The desired pose survives the sync phase or is freshly clamped. -/
theorem sync_phase_desired (st : LoopState) (s : RobotState) :
    (sync_phase st s).desired = st.desired ∨
    ∃ p, (sync_phase st s).desired = clamp_pose p := by
  unfold sync_phase
  split
  · split
    · exact Or.inr ⟨_, rfl⟩
    · exact Or.inl rfl
  · exact Or.inl rfl

/-- The replan phase leaves the desired pose alone. -/
theorem replan_phase_desired (st : LoopState) (a b : ℚ) (nr : Bool) :
    (replan_phase st a b nr).desired = st.desired := by
  unfold replan_phase
  split <;> rfl

/-- The pending phase leaves the desired pose alone. -/
theorem pending_phase_desired (st : LoopState) :
    (pending_phase st).desired = st.desired := by
  unfold pending_phase
  split <;> rfl

/-- The desired pose survives the tilt phase or is freshly clamped. -/
theorem tilt_phase_desired (st : LoopState) (q : Option ℚ) (a b : ℚ) :
    (tilt_phase st q a b).desired = st.desired ∨
    ∃ p, (tilt_phase st q a b).desired = clamp_pose p := by
  unfold tilt_phase
  split
  · split
    · exact Or.inr ⟨_, rfl⟩
    · exact Or.inl rfl
  · exact Or.inl rfl

/-- The send phase leaves the desired pose alone. -/
theorem send_phase_desired (st : LoopState) (s : RobotState) (now : ℚ) :
    (send_phase st s now).1.desired = st.desired := by
  unfold send_phase
  split
  · split <;> rfl
  · rfl

/-- The completion phase leaves the desired pose alone. -/
theorem complete_phase_desired (st : LoopState) (s : RobotState) :
    (complete_phase st s).desired = st.desired := by
  unfold complete_phase
  split <;> rfl

/-- The desired pose after a full `tick_body` is the incoming one or a
clamped pose. -/
theorem tick_body_desired (st : LoopState) (s : RobotState) (now : ℚ)
    (nr : Bool) :
    (tick_body st s now nr).1.desired = st.desired ∨
    ∃ p, (tick_body st s now nr).1.desired = clamp_pose p := by
  unfold tick_body
  simp only [complete_phase_desired, send_phase_desired]
  rcases tilt_phase_desired (pending_phase (replan_phase (sync_phase st s) _ _ nr))
      s.q5 _ _ with h | ⟨p, hp⟩
  · rw [h, pending_phase_desired, replan_phase_desired]
    exact sync_phase_desired st s
  · exact Or.inr ⟨p, hp⟩

/-- `send_phase` on a state whose watchdog register is `W`. -/
theorem send_phase_sends_reg (ST : LoopState) (s : RobotState) (now : ℚ)
    (W : ℤ) (hW : ST.watchdog_reg = W) :
    (∃ p, (send_phase ST s now).2 = [Send.setp p, Send.watchdog 1]) ∨
    (send_phase ST s now).2 = [Send.watchdog W] :=
  hW ▸ send_phase_sends ST s now

/-- The sends of a full `tick_body`: one setpoint plus watchdog-1 write, or
a lone watchdog write of the incoming register value. -/
theorem tick_body_sends (st : LoopState) (s : RobotState) (now : ℚ)
    (nr : Bool) :
    (∃ p, (tick_body st s now nr).2 = [Send.setp p, Send.watchdog 1]) ∨
    (tick_body st s now nr).2 = [Send.watchdog st.watchdog_reg] := by
  simp only [tick_body]
  exact send_phase_sends_reg _ s now _
    (by rw [tilt_phase_watchdog, pending_phase_watchdog, replan_phase_watchdog,
            sync_phase_watchdog])

/-! ### C4 -/

attribute [local semireducible] Rat.add Rat.mul Rat.inv Rat.sub Rat.ofScientific in
/-- C4 counterexample: an iteration on which `con.receive()` returns no
state performs no writes at all — the `continue` at line 228 of
`keyboard_control_loop.py` skips the watchdog write, contradicting the
claim that every iteration services the watchdog. -/
theorem C4_counterexample :
    (keyboard_tick false (keyboard_init none)
        { key := none, state := none, now := 1 }).2.1 = [] ∧
    (keyboard_tick false (keyboard_init none)
        { key := none, state := none, now := 1 }).2.2 = TickResult.ok := by
  decide

/-- C4 amended: an iteration that obtains a state snapshot performs exactly
one watchdog write (after a setpoint write, or alone); an iteration with no
snapshot — and an ESC iteration — performs no link writes at all, the
watchdog included. -/
theorem C4_amended (i : Bool) (st : LoopState) (inp : TickInput) :
    (inp.state = none → (keyboard_tick i st inp).2.1 = []) ∧
    (∀ s, inp.state = some s →
      (keyboard_tick i st inp).2.2 = TickResult.ok →
      ((∃ p, (keyboard_tick i st inp).2.1 = [Send.setp p, Send.watchdog 1]) ∨
       (keyboard_tick i st inp).2.1 = [Send.watchdog st.watchdog_reg])) := by
  constructor
  · intro hnone
    simp only [keyboard_tick, hnone]
    split
    · rfl
    · rfl
  · intro s hs hok
    by_cases hbrk : (key_phase i st inp.key).brk = true
    · exfalso
      simp only [keyboard_tick, if_pos hbrk] at hok
      exact absurd hok (by simp)
    · simp only [keyboard_tick, hs, if_neg hbrk]
      simp only [keyboard_tick, hs, if_neg hbrk] at hok
      exact tick_body_sends _ s inp.now _

/-- Witness for C4 amended: a no-state tick sends nothing; a tick with a
minimal snapshot performs its watchdog write. -/
theorem C4_amended_witness :
    (keyboard_tick false (keyboard_init none)
        { key := none, state := none, now := 1 }).2.1 = [] ∧
    ((∃ p, (keyboard_tick false (keyboard_init none)
        { key := none, state := some ⟨none, none, none⟩, now := 1 }).2.1
          = [Send.setp p, Send.watchdog 1]) ∨
     (keyboard_tick false (keyboard_init none)
        { key := none, state := some ⟨none, none, none⟩, now := 1 }).2.1
          = [Send.watchdog (keyboard_init none).watchdog_reg]) :=
  ⟨(C4_amended false (keyboard_init none)
      { key := none, state := none, now := 1 }).1 rfl,
   (C4_amended false (keyboard_init none)
      { key := none, state := some ⟨none, none, none⟩, now := 1 }).2
      ⟨none, none, none⟩ rfl rfl⟩

/-! ### C5 -/

attribute [local semireducible] Rat.add Rat.mul Rat.inv Rat.sub Rat.ofScientific in
/-- C5 counterexample: the wacom loop enters its `while` loop with the
watchdog register already set to 1 (`wacom_control_loop.py` line 98), and
its first iteration writes that 1 — the register is not zero at the first
tick.  The keyboard loop's shutdown path performs no watchdog write, so a
register left at 1 mid-run is not forced to zero on exit. -/
theorem C5_counterexample :
    wacom_init.1.watchdog_reg ≠ 0 ∧
    (wacom_tick wacom_init.1 none).2 = [Send.setp WACOM_HOME, Send.watchdog 1] ∧
    (keyboard_shutdown { keyboard_init none with watchdog_reg := 1 }).1.watchdog_reg
      = 1 ∧
    (keyboard_shutdown { keyboard_init none with watchdog_reg := 1 }).2 = [] := by
  refine ⟨by decide, by decide, rfl, rfl⟩

/-- C5 amended: the keyboard loop's watchdog register is zero at the first
tick, but its shutdown path writes nothing, leaving the register at its
mid-run value; the wacom loop's register is 1 from before the first tick,
and only the wacom shutdown path forces it to zero and sends it. -/
theorem C5_amended :
    (∀ tcp : Option Pose, (keyboard_init tcp).watchdog_reg = 0) ∧
    (∀ st : LoopState, keyboard_shutdown st = (st, [])) ∧
    wacom_init.1.watchdog_reg = 1 ∧
    (∀ w : WacomState, (wacom_shutdown w).1.watchdog_reg = 0 ∧
      (wacom_shutdown w).2 = [Send.watchdog 0]) :=
  ⟨fun _ => rfl, fun _ => rfl, rfl, fun _ => ⟨rfl, rfl⟩⟩

/-! ### C6 -/

/-- The desired pose after a keyboard tick is the incoming one or a clamped
pose. -/
theorem keyboard_tick_desired (i : Bool) (st : LoopState) (inp : TickInput) :
    (keyboard_tick i st inp).1.desired = st.desired ∨
    ∃ p, (keyboard_tick i st inp).1.desired = clamp_pose p := by
  by_cases hbrk : (key_phase i st inp.key).brk = true
  · simp only [keyboard_tick, if_pos hbrk]
    exact Or.inl (by trivial)
  · simp only [keyboard_tick, if_neg hbrk]
    cases hstate : inp.state with
    | none =>
      by_cases hd : (key_phase i st inp.key).dirty = true
      · simp only [if_pos hd]
        exact Or.inr ⟨_, by trivial⟩
      · simp only [if_neg hd]
        exact Or.inl (by trivial)
    | some s =>
      rcases tick_body_desired
          { st with desired := if (key_phase i st inp.key).dirty = true
                      then clamp_pose (key_phase i st inp.key).pose else st.desired
                    base_pos_step := (key_phase i st inp.key).base_pos_step
                    base_rot_step := (key_phase i st inp.key).base_rot_step
                    sync_request := (key_phase i st inp.key).sync_request }
          s inp.now (key_phase i st inp.key).dirty with h | ⟨p, hp⟩
      · rw [h]
        by_cases hd : (key_phase i st inp.key).dirty = true
        · simp only [if_pos hd]
          exact Or.inr ⟨_, by trivial⟩
        · simp only [if_neg hd]
          exact Or.inl (by trivial)
      · exact Or.inr ⟨p, hp⟩

attribute [local semireducible] Rat.add Rat.mul Rat.inv Rat.sub Rat.ofScientific in
/-- C6 counterexample: the initial desired pose taken from the live TCP
pose is stored and sent without clamping — with an out-of-range initial
TCP pose `(2, 0, 0, 0, 0, 0)` (x beyond the 1.5 m bound) the first
iteration sends it untouched. -/
theorem C6_counterexample :
    clamp_pose (keyboard_init (some ⟨2,0,0,0,0,0⟩)).desired
      ≠ (keyboard_init (some ⟨2,0,0,0,0,0⟩)).desired ∧
    (keyboard_tick false (keyboard_init (some ⟨2,0,0,0,0,0⟩))
        { key := none, state := some ⟨none, none, none⟩, now := 1 }).2.1
      = [Send.setp ⟨2,0,0,0,0,0⟩, Send.watchdog 1] := by
  decide

/-- C6 amended: every mutation of the desired pose performed inside the
loop body (keyboard delta integration, sync-to-TCP, auto-tilt) passes
through `clamp_pose`, and the wacom absolute remap lands inside the
workspace bounds for normalized inputs, so its output is clamp-invariant —
but the initial desired pose (live TCP pose or home fallback) is used
without clamping. -/
theorem C6_amended :
    (∀ (i : Bool) (st : LoopState) (inp : TickInput),
      (keyboard_tick i st inp).1.desired = st.desired ∨
      clamp_pose (keyboard_tick i st inp).1.desired
        = (keyboard_tick i st inp).1.desired) ∧
    (∀ tx ty : ℚ, 0 ≤ tx → tx ≤ 1 → 0 ≤ ty → ty ≤ 1 →
      clamp_pose (map_tablet_to_robot tx ty WACOM_HOME)
        = map_tablet_to_robot tx ty WACOM_HOME) := by
  constructor
  · intro i st inp
    rcases keyboard_tick_desired i st inp with h | ⟨p, hp⟩
    · exact Or.inl h
    · right
      rw [hp]
      exact clamp_pose_idem p
  · intro tx ty h0x h1x h0y h1y
    simp only [clamp_pose, map_tablet_to_robot, WACOM_HOME, TABLET_WIDTH_M,
      TABLET_HEIGHT_M]
    ext
    · dsimp only
      rw [min_eq_right (by nlinarith), max_eq_right (by nlinarith)]
    · dsimp only
      rw [min_eq_right (by nlinarith), max_eq_right (by nlinarith)]
    · dsimp only
      rw [min_eq_right (by norm_num), max_eq_right (by norm_num)]
    · dsimp only
      rw [if_neg (by rw [abs_of_nonneg (by norm_num : (0:ℚ) ≤ 1/1000)]; norm_num [ROT_BOUND])]
    · dsimp only
      rw [if_neg (by rw [abs_of_nonpos (by norm_num : -(3166/1000) ≤ (0:ℚ))]; norm_num [ROT_BOUND])]
    · dsimp only
      rw [if_neg (by rw [abs_of_nonpos (by norm_num : -(40/1000) ≤ (0:ℚ))]; norm_num [ROT_BOUND])]

attribute [local semireducible] Rat.add Rat.mul Rat.inv Rat.sub Rat.ofScientific in
/-- Witness for C6 amended: a concrete no-key tick and the centered tablet
sample. -/
theorem C6_amended_witness :
    ((keyboard_tick false (keyboard_init none)
        { key := none, state := none, now := 1 }).1.desired
          = (keyboard_init none).desired ∨
      clamp_pose (keyboard_tick false (keyboard_init none)
        { key := none, state := none, now := 1 }).1.desired
          = (keyboard_tick false (keyboard_init none)
        { key := none, state := none, now := 1 }).1.desired) ∧
    clamp_pose (map_tablet_to_robot (1/2) (1/2) WACOM_HOME)
      = map_tablet_to_robot (1/2) (1/2) WACOM_HOME :=
  ⟨C6_amended.1 false (keyboard_init none) { key := none, state := none, now := 1 },
   C6_amended.2 (1/2) (1/2) (by norm_num) (by norm_num) (by norm_num) (by norm_num)⟩

/-! ### C7 -/

/-- With no sync requested the sync phase is the identity. -/
theorem sync_phase_id (st : LoopState) (s : RobotState)
    (h : st.sync_request = false) : sync_phase st s = st := by
  unfold sync_phase
  rw [h]
  simp

/-- With no replan needed the replan phase is the identity. -/
theorem replan_phase_false (st : LoopState) (a b : ℚ) :
    replan_phase st a b false = st := by
  unfold replan_phase
  simp

/-- The pending phase is the identity on a state already pending. -/
theorem pending_phase_of_true (st : LoopState) (h : st.pending_send = true) :
    pending_phase st = st := by
  unfold pending_phase
  split
  · rfl
  · cases st
    simp_all

/-- The tilt phase fires when a send is pending, the queue head's
displacement is lateral-dominant, and `|q5|` is at or below the limit. -/
theorem tilt_phase_fires (st : LoopState) (v ps rs : ℚ) (peek : Pose)
    (rest : List Pose) (hqueue : st.segment_queue = peek :: rest)
    (hpend : st.pending_send = true) (hlim : |v| ≤ WRIST2_LIMIT)
    (hlat : 3 * |peek.z - st.current_cmd.z| <
      |peek.x - st.current_cmd.x| + |peek.y - st.current_cmd.y|) :
    tilt_phase st (some v) ps rs
      = { st with
          desired := clamp_pose { st.desired with
            ry := st.desired.ry + (if 0 ≤ v then TILT_STEP else -TILT_STEP) }
          segment_queue := plan_segments st.current_cmd
            (clamp_pose { st.desired with
              ry := st.desired.ry + (if 0 ≤ v then TILT_STEP else -TILT_STEP) })
            ps rs } := by
  unfold tilt_phase
  rw [hqueue]
  dsimp only
  rw [if_pos ⟨hpend, hlim, hlat⟩]

/-- The send phase sends only the watchdog when the 20 ms rate limit has
not elapsed. -/
theorem send_phase_skip (st : LoopState) (s : RobotState) (now : ℚ)
    (h : ¬ ((1:ℚ)/50 ≤ now - st.last_send_time)) :
    send_phase st s now = (st, [Send.watchdog st.watchdog_reg]) := by
  unfold send_phase
  rw [if_neg (fun hc => h hc.2.2)]

/-- The completion phase leaves the segment queue alone. -/
theorem complete_phase_queue (st : LoopState) (s : RobotState) :
    (complete_phase st s).segment_queue = st.segment_queue := by
  unfold complete_phase
  split <;> rfl

attribute [local semireducible] Rat.add Rat.mul Rat.inv Rat.sub Rat.ofScientific in
/-- C7 counterexample: with `q5 = 0.05` (below the limit), a pending
lateral-dominant waypoint, and the desired pitch `ry = 6.25` rad (a clamped,
in-range pose), the auto-tilt pushes `ry` to `6.32 > 6.28319`, so
`clamp_pose` resets it to 0: the pitch changes by `-6.25` rad, not by the
claimed exact `+0.07`. -/
theorem C7_counterexample :
    clamp_pose ⟨0,0,0,0,25/4,0⟩ = ⟨0,0,0,0,25/4,0⟩ ∧
    |(1:ℚ)/20| ≤ WRIST2_LIMIT ∧
    (keyboard_tick true
      { desired := ⟨0,0,0,0,25/4,0⟩, current_cmd := ⟨0,0,0,0,0,0⟩
        segment_queue := [⟨1/100,0,0,0,25/4,0⟩], pending_send := true
        move_completed := true, last_send_time := 0, base_pos_step := 1/100
        base_rot_step := 1/20, sync_request := false, last_scale := 1
        watchdog_reg := 1 }
      { key := none
        state := some { actual_TCP_pose := none, q5 := some (1/20)
                        output_int_register_0 := some 1 }
        now := 0 }).1.desired.ry - (25/4 : ℚ) = -(25/4) := by
  refine ⟨by decide, by decide, by decide⟩

/-- C7 amended: under the tilt conditions (`|q5| ≤ LIMIT`, pending send,
lateral-dominant queued displacement) and provided the tilted pitch stays
within the `2π` clamp bound, the auto-tilt changes the desired pitch by
exactly `TILT_STEP = 0.07` rad — added when `q5 ≥ 0`, subtracted when
`q5 < 0` — leaves the three position components unchanged, and rebuilds the
segment queue toward the tilted pose (a forced replan). -/
theorem C7_amended (i : Bool) (st : LoopState) (inp : TickInput)
    (s : RobotState) (v : ℚ) (peek : Pose) (rest : List Pose)
    (hkey : inp.key = none) (hstate : inp.state = some s)
    (hsync : st.sync_request = false) (hq : s.q5 = some v)
    (hlim : |v| ≤ WRIST2_LIMIT)
    (hqueue : st.segment_queue = peek :: rest)
    (hpend : st.pending_send = true)
    (hlat : 3 * |peek.z - st.current_cmd.z| <
      |peek.x - st.current_cmd.x| + |peek.y - st.current_cmd.y|)
    (hclamp : clamp_pose st.desired = st.desired)
    (hbound : |st.desired.ry + (if 0 ≤ v then TILT_STEP else -TILT_STEP)|
      ≤ ROT_BOUND)
    (hrate : inp.now - st.last_send_time < 1/50) :
    (keyboard_tick i st inp).1.desired.x = st.desired.x ∧
    (keyboard_tick i st inp).1.desired.y = st.desired.y ∧
    (keyboard_tick i st inp).1.desired.z = st.desired.z ∧
    (keyboard_tick i st inp).1.desired.ry
      = st.desired.ry + (if 0 ≤ v then TILT_STEP else -TILT_STEP) ∧
    (keyboard_tick i st inp).1.segment_queue
      = plan_segments st.current_cmd (keyboard_tick i st inp).1.desired
          (max MIN_SEG ((1/200) * singularity_scale v))
          (max ((1:ℚ)/50) ((3/100) * singularity_scale v)) := by
  have hkpd : key_phase i st inp.key
      = { pose := st.desired, dirty := false, base_pos_step := st.base_pos_step
          base_rot_step := st.base_rot_step, sync_request := st.sync_request
          brk := false } := by
    rw [hkey, key_phase_none]
  have htick : keyboard_tick i st inp
      = ((tick_body st s inp.now false).1, (tick_body st s inp.now false).2,
         TickResult.ok) := by
    simp only [keyboard_tick, hkpd, hstate]
    simp
  have hbody : tick_body st s inp.now false
      = ({ complete_phase
            { st with
              desired := clamp_pose { st.desired with
                ry := st.desired.ry
                  + (if 0 ≤ v then TILT_STEP else -TILT_STEP) }
              segment_queue := plan_segments st.current_cmd
                (clamp_pose { st.desired with
                  ry := st.desired.ry
                    + (if 0 ≤ v then TILT_STEP else -TILT_STEP) })
                (max MIN_SEG ((1/200) * singularity_scale v))
                (max ((1:ℚ)/50) ((3/100) * singularity_scale v)) } s
            with last_scale := singularity_scale v },
         [Send.watchdog st.watchdog_reg]) := by
    simp only [tick_body, hq]
    rw [sync_phase_id st s hsync, replan_phase_false,
        pending_phase_of_true st hpend,
        tilt_phase_fires st v _ _ peek rest hqueue hpend hlim hlat]
    rw [send_phase_skip]
    exact not_le.mpr hrate
  have hdes : (keyboard_tick i st inp).1.desired
      = clamp_pose { st.desired with
          ry := st.desired.ry + (if 0 ≤ v then TILT_STEP else -TILT_STEP) } := by
    rw [htick, hbody]
    show (complete_phase _ s).desired = _
    rw [complete_phase_desired]
  have hque : (keyboard_tick i st inp).1.segment_queue
      = plan_segments st.current_cmd
          (clamp_pose { st.desired with
            ry := st.desired.ry + (if 0 ≤ v then TILT_STEP else -TILT_STEP) })
          (max MIN_SEG ((1/200) * singularity_scale v))
          (max ((1:ℚ)/50) ((3/100) * singularity_scale v)) := by
    rw [htick, hbody]
    show (complete_phase _ s).segment_queue = _
    rw [complete_phase_queue]
  refine ⟨?_, ?_, ?_, ?_, ?_⟩
  · rw [hdes]
    show max (-(3/2)) (min (3/2) st.desired.x) = st.desired.x
    exact congrArg Pose.x hclamp
  · rw [hdes]
    show max (-(3/2)) (min (3/2) st.desired.y) = st.desired.y
    exact congrArg Pose.y hclamp
  · rw [hdes]
    show max (-(1/5)) (min (3/2) st.desired.z) = st.desired.z
    exact congrArg Pose.z hclamp
  · rw [hdes]
    show (if ROT_BOUND < |st.desired.ry
        + (if 0 ≤ v then TILT_STEP else -TILT_STEP)| then 0
      else st.desired.ry + (if 0 ≤ v then TILT_STEP else -TILT_STEP)) = _
    rw [if_neg (not_lt.mpr hbound)]
  · rw [hque, hdes]

attribute [local semireducible] Rat.add Rat.mul Rat.inv Rat.sub Rat.ofScientific in
/-- Witness for C7 amended: zero desired pose, a 1 cm lateral queued
waypoint, `q5 = 0.05`. -/
theorem C7_amended_witness :
    (keyboard_tick true
      { desired := ⟨0,0,0,0,0,0⟩, current_cmd := ⟨0,0,0,0,0,0⟩
        segment_queue := [⟨1/100,0,0,0,0,0⟩], pending_send := true
        move_completed := true, last_send_time := 0, base_pos_step := 1/100
        base_rot_step := 1/20, sync_request := false, last_scale := 1
        watchdog_reg := 1 }
      { key := none
        state := some { actual_TCP_pose := none, q5 := some (1/20)
                        output_int_register_0 := some 1 }
        now := 0 }).1.desired.ry
      = (0:ℚ) + (if 0 ≤ (1:ℚ)/20 then TILT_STEP else -TILT_STEP) :=
  (C7_amended true
      { desired := ⟨0,0,0,0,0,0⟩, current_cmd := ⟨0,0,0,0,0,0⟩
        segment_queue := [⟨1/100,0,0,0,0,0⟩], pending_send := true
        move_completed := true, last_send_time := 0, base_pos_step := 1/100
        base_rot_step := 1/20, sync_request := false, last_scale := 1
        watchdog_reg := 1 }
      { key := none
        state := some { actual_TCP_pose := none, q5 := some (1/20)
                        output_int_register_0 := some 1 }
        now := 0 }
      { actual_TCP_pose := none, q5 := some (1/20)
        output_int_register_0 := some 1 }
      (1/20) ⟨1/100,0,0,0,0,0⟩ []
      rfl rfl rfl rfl (by decide) rfl rfl (by decide) (by decide) (by decide)
      (by decide)).2.2.2.1

/-! ### C8 -/

/-- A wacom iteration with a timed-out read holds the commanded pose. -/
theorem wacom_tick_none (st : WacomState) :
    wacom_tick st none
      = (st, [Send.setp st.current_cmd, Send.watchdog st.watchdog_reg]) := rfl

/-- C8: over any run of consecutive iterations whose pointer reads all time
out, the commanded pose sent is the same on every iteration and equal to
the pose commanded before the first timeout, and the state's commanded pose
is unchanged at the end of the run. -/
theorem C8_hold_on_timeout (st : WacomState)
    (inputs : List (Option (ℚ × ℚ × ℚ))) (h : ∀ i ∈ inputs, i = none) :
    (wacom_run st inputs).1.current_cmd = st.current_cmd ∧
    ∀ s ∈ (wacom_run st inputs).2,
      s = [Send.setp st.current_cmd, Send.watchdog st.watchdog_reg] := by
  induction inputs generalizing st with
  | nil => simp [wacom_run]
  | cons i rest ih =>
    have hi : i = none := h i (by simp)
    subst hi
    have hrest : ∀ j ∈ rest, j = none := fun j hj => h j (by simp [hj])
    have := ih st hrest
    simp only [wacom_run, wacom_tick_none]
    refine ⟨this.1, ?_⟩
    intro s hs
    simp only [List.mem_cons] at hs
    rcases hs with hs | hs
    · exact hs
    · exact this.2 s hs

/-- Witness for C8 at the spec's scenario: three consecutive timeouts from
the initial wacom state. -/
theorem C8_hold_on_timeout_witness :
    (wacom_run wacom_init.1 [none, none, none]).1.current_cmd
      = wacom_init.1.current_cmd ∧
    ∀ s ∈ (wacom_run wacom_init.1 [none, none, none]).2,
      s = [Send.setp wacom_init.1.current_cmd,
           Send.watchdog wacom_init.1.watchdog_reg] :=
  C8_hold_on_timeout wacom_init.1 [none, none, none] (by decide)

/-! ### C9 -/

/-- C9: `read_normalized` raises `TimeoutError` exactly when the first
component of the backend value is `None` at expiry; a value whose `x` is
present is returned as-is, even when `y` or the pressure is still `None`,
so the public interface can yield a partially-`None` tuple. -/
theorem C9_read_normalized_timeout (first : Sample) (rest : List Sample) :
    ((∃ m, read_normalized first rest = ReadResult.timeout m) ↔
      (read_with_timeout first rest).1 = none) ∧
    (∀ (x : ℚ) (y p : Option ℚ),
      read_with_timeout first rest = (some x, y, p) →
      read_normalized first rest = ReadResult.ok (some x, y, p)) := by
  constructor
  · constructor
    · rintro ⟨m, hm⟩
      by_contra hx
      simp only [read_normalized, if_neg hx] at hm
      exact ReadResult.noConfusion hm
    · intro hx
      exact ⟨"No tablet data available yet (normalized).",
        by simp only [read_normalized, if_pos hx]⟩
  · intro x y p hv
    simp only [read_normalized, hv]
    rfl

/-- Witness for C9: a backend value with only `x` populated is returned as
a partially-`None` tuple; an empty backend value raises. -/
theorem C9_read_normalized_timeout_witness :
    read_normalized (some (1/2), none, none) []
      = ReadResult.ok (some (1/2), none, none) ∧
    ∃ m, read_normalized (none, none, none) [] = ReadResult.timeout m :=
  ⟨(C9_read_normalized_timeout (some (1/2), none, none) []).2 (1/2) none none
      rfl,
   ((C9_read_normalized_timeout (none, none, none) []).1).mpr rfl⟩

/-- With no wrist reading the tilt phase is the identity. -/
theorem tilt_phase_none (st : LoopState) (a b : ℚ) :
    tilt_phase st none a b = st := rfl

/-! ### C10 -/

/-- C10: a state snapshot with no `output_int_register_0` field is treated
as ready — with a pending queued waypoint and the rate limit elapsed, the
head waypoint is popped and sent (followed by the watchdog), exactly as for
an explicit ready value of 1; only an explicit value other than 1
suppresses the setpoint send, leaving a lone watchdog write. -/
theorem C10_missing_ready_defaults_to_send (i : Bool) (st : LoopState)
    (inp : TickInput) (s : RobotState) (p : Pose) (rest : List Pose)
    (hkey : inp.key = none) (hstate : inp.state = some s)
    (hsync : st.sync_request = false) (hq : s.q5 = none)
    (hqueue : st.segment_queue = p :: rest)
    (hrate : (1:ℚ)/50 ≤ inp.now - st.last_send_time) :
    (s.output_int_register_0 = none →
      (keyboard_tick i st inp).2.1 = [Send.setp p, Send.watchdog 1] ∧
      (keyboard_tick i st inp).1.current_cmd = p ∧
      (keyboard_tick i st inp).1.segment_queue = rest) ∧
    (∀ w : ℤ, s.output_int_register_0 = some w → w ≠ 1 →
      (keyboard_tick i st inp).2.1 = [Send.watchdog st.watchdog_reg]) := by
  have hkpd : key_phase i st inp.key
      = { pose := st.desired, dirty := false, base_pos_step := st.base_pos_step
          base_rot_step := st.base_rot_step, sync_request := st.sync_request
          brk := false } := by
    rw [hkey, key_phase_none]
  have htick : keyboard_tick i st inp
      = ((tick_body st s inp.now false).1, (tick_body st s inp.now false).2,
         TickResult.ok) := by
    simp only [keyboard_tick, hkpd, hstate]
    simp
  have hpend4 : pending_phase st = { st with pending_send := true } := by
    unfold pending_phase
    rw [if_neg (by rw [hqueue]; exact fun hc => List.noConfusion hc)]
  have hcommon : tick_body st s inp.now false
      = ({ complete_phase (send_phase { st with pending_send := true } s
            inp.now).1 s with last_scale := 1 },
         (send_phase { st with pending_send := true } s inp.now).2) := by
    simp only [tick_body, hq]
    rw [sync_phase_id st s hsync, replan_phase_false, hpend4, tilt_phase_none]
  constructor
  · intro hnone
    have hsend : send_phase { st with pending_send := true } s inp.now
        = ({ st with
              current_cmd := p
              segment_queue := rest
              pending_send := !rest.isEmpty
              move_completed := false
              last_send_time := inp.now
              watchdog_reg := 1 },
           [Send.setp p, Send.watchdog 1]) := by
      unfold send_phase
      rw [if_pos ⟨rfl, by rw [hnone]; rfl, hrate⟩]
      dsimp only
      rw [hqueue]
    rw [htick, hcommon, hsend]
    refine ⟨rfl, ?_, ?_⟩
    · show (complete_phase _ s).current_cmd = p
      unfold complete_phase
      split <;> rfl
    · show (complete_phase _ s).segment_queue = rest
      rw [complete_phase_queue]
  · intro w hw hw1
    have hsend : send_phase { st with pending_send := true } s inp.now
        = ({ st with pending_send := true },
           [Send.watchdog st.watchdog_reg]) := by
      unfold send_phase
      rw [if_neg (fun hc => hw1 (by
        have := hc.2.1
        rw [hw] at this
        exact this))]
    rw [htick, hcommon, hsend]

attribute [local semireducible] Rat.add Rat.mul Rat.inv Rat.sub Rat.ofScientific in
/-- Witness for C10: a snapshot with no readiness register pops and sends
the single queued waypoint; an explicit 0 suppresses the setpoint. -/
theorem C10_missing_ready_defaults_to_send_witness :
    ((keyboard_tick false
      { desired := ⟨0,0,0,0,0,0⟩, current_cmd := ⟨0,0,0,0,0,0⟩
        segment_queue := [⟨1/100,0,0,0,0,0⟩], pending_send := false
        move_completed := true, last_send_time := 0, base_pos_step := 1/100
        base_rot_step := 1/20, sync_request := false, last_scale := 1
        watchdog_reg := 0 }
      { key := none
        state := some { actual_TCP_pose := none, q5 := none
                        output_int_register_0 := none }
        now := 1 }).2.1
      = [Send.setp ⟨1/100,0,0,0,0,0⟩, Send.watchdog 1]) ∧
    ((keyboard_tick false
      { desired := ⟨0,0,0,0,0,0⟩, current_cmd := ⟨0,0,0,0,0,0⟩
        segment_queue := [⟨1/100,0,0,0,0,0⟩], pending_send := false
        move_completed := true, last_send_time := 0, base_pos_step := 1/100
        base_rot_step := 1/20, sync_request := false, last_scale := 1
        watchdog_reg := 0 }
      { key := none
        state := some { actual_TCP_pose := none, q5 := none
                        output_int_register_0 := some 0 }
        now := 1 }).2.1
      = [Send.watchdog 0]) :=
  ⟨((C10_missing_ready_defaults_to_send false
      { desired := ⟨0,0,0,0,0,0⟩, current_cmd := ⟨0,0,0,0,0,0⟩
        segment_queue := [⟨1/100,0,0,0,0,0⟩], pending_send := false
        move_completed := true, last_send_time := 0, base_pos_step := 1/100
        base_rot_step := 1/20, sync_request := false, last_scale := 1
        watchdog_reg := 0 }
      { key := none
        state := some { actual_TCP_pose := none, q5 := none
                        output_int_register_0 := none }
        now := 1 }
      { actual_TCP_pose := none, q5 := none, output_int_register_0 := none }
      ⟨1/100,0,0,0,0,0⟩ []
      rfl rfl rfl rfl rfl (by decide)).1 rfl).1,
   (C10_missing_ready_defaults_to_send false
      { desired := ⟨0,0,0,0,0,0⟩, current_cmd := ⟨0,0,0,0,0,0⟩
        segment_queue := [⟨1/100,0,0,0,0,0⟩], pending_send := false
        move_completed := true, last_send_time := 0, base_pos_step := 1/100
        base_rot_step := 1/20, sync_request := false, last_scale := 1
        watchdog_reg := 0 }
      { key := none
        state := some { actual_TCP_pose := none, q5 := none
                        output_int_register_0 := some 0 }
        now := 1 }
      { actual_TCP_pose := none, q5 := none, output_int_register_0 := some 0 }
      ⟨1/100,0,0,0,0,0⟩ []
      rfl rfl rfl rfl rfl (by decide)).2 0 rfl (by decide)⟩

end RTDE

